/-
Verification of the SubHub backend core (session authentication + durable
persistence) against its natural-language specification.

The Python sources under `backend/src` (current variant) and
`backend/old_src` (historical variant) are shallowly embedded below:
pure functions become Lean functions, the module-level mutable
dictionaries become explicit state records threaded through each
operation, machine floats used as time instants become `Int`
(only their ordering and addition matter), JSON documents become
structured Lean values, and fallible code returns `Option`/`Except`.
-/
import Mathlib

set_option maxRecDepth 4000

namespace SubHub

/-! ## Calendar dates (`datetime.date`)

Python's `str(date)` prints `YYYY-MM-DD` (zero padded) and
`date.fromisoformat` parses exactly that shape back, rejecting
out-of-range components. -/

/-- A Python `datetime.date` value: a year/month/day triple. -/
structure PyDate where
  year : Nat
  month : Nat
  day : Nat
deriving DecidableEq, Repr

/-- Gregorian leap-year test, as implemented by `datetime`. -/
def isLeapYear (y : Nat) : Bool :=
  y % 4 == 0 && (y % 100 != 0 || y % 400 == 0)

/-- Number of days in a month, as implemented by `datetime`. -/
def daysInMonth (y m : Nat) : Nat :=
  if m = 2 then (if isLeapYear y then 29 else 28)
  else if m = 4 ∨ m = 6 ∨ m = 9 ∨ m = 11 then 30
  else 31

/-- The range constraints `datetime.date` enforces on construction. -/
def PyDate.isValid (d : PyDate) : Bool :=
  1 ≤ d.year && d.year ≤ 9999 &&
  1 ≤ d.month && d.month ≤ 12 &&
  1 ≤ d.day && d.day ≤ daysInMonth d.year d.month

/-- Zero-padded decimal rendering of `n` to exactly `k` digits
(the shape `str(date)` emits for each component). -/
def padNum : Nat → Nat → List Char
  | 0, _ => []
  | k + 1, n => padNum k (n / 10) ++ [Nat.digitChar (n % 10)]

/-- `str(d)` for a date: the ISO-8601 `YYYY-MM-DD` character sequence. -/
def PyDate.toIsoChars (d : PyDate) : List Char :=
  padNum 4 d.year ++ '-' :: (padNum 2 d.month ++ '-' :: padNum 2 d.day)

/-- `str(d)` for a date, as a string (what `json.dump(default=str)` writes). -/
def PyDate.toIso (d : PyDate) : String :=
  ⟨d.toIsoChars⟩

/-- Parse a run of decimal digits, accumulating left to right;
fails on any non-digit character. -/
def parseDigitsAux : List Char → Nat → Option Nat
  | [], acc => some acc
  | c :: cs, acc =>
    if c.isDigit then parseDigitsAux cs (acc * 10 + (c.toNat - 48)) else none

/-- `date.fromisoformat` on the character sequence: accepts exactly
`YYYY-MM-DD` with in-range components, rejecting anything else. -/
def fromIsoChars (cs : List Char) : Option PyDate :=
  match cs with
  | y1 :: y2 :: y3 :: y4 :: c1 :: m1 :: m2 :: c2 :: d1 :: d2 :: [] =>
    if c1 = '-' ∧ c2 = '-' then
      match parseDigitsAux [y1, y2, y3, y4] 0,
            parseDigitsAux [m1, m2] 0,
            parseDigitsAux [d1, d2] 0 with
      | some y, some m, some dd =>
        if (PyDate.mk y m dd).isValid then some ⟨y, m, dd⟩ else none
      | _, _, _ => none
    else none
  | _ => none

/-- `date.fromisoformat(s)`, returning `none` where Python raises `ValueError`. -/
def date_fromisoformat (s : String) : Option PyDate :=
  fromIsoChars s.data

theorem digitChar_isDigit : ∀ m < 10, (Nat.digitChar m).isDigit = true := by
  decide

theorem digitChar_toNat : ∀ m < 10, (Nat.digitChar m).toNat - 48 = m := by
  decide

theorem parseDigitsAux_digit (m : Nat) (hm : m < 10) (cs : List Char) (acc : Nat) :
    parseDigitsAux (Nat.digitChar m :: cs) acc = parseDigitsAux cs (acc * 10 + m) := by
  simp [parseDigitsAux, digitChar_isDigit m hm, digitChar_toNat m hm]

theorem parse_padNum4 (n : Nat) (h : n ≤ 9999) :
    parseDigitsAux (padNum 4 n) 0 = some n := by
  have e : padNum 4 n =
      [Nat.digitChar (n / 10 / 10 / 10 % 10), Nat.digitChar (n / 10 / 10 % 10),
       Nat.digitChar (n / 10 % 10), Nat.digitChar (n % 10)] := rfl
  rw [e, parseDigitsAux_digit _ (Nat.mod_lt _ (by norm_num)),
      parseDigitsAux_digit _ (Nat.mod_lt _ (by norm_num)),
      parseDigitsAux_digit _ (Nat.mod_lt _ (by norm_num)),
      parseDigitsAux_digit _ (Nat.mod_lt _ (by norm_num))]
  show some _ = some n
  congr 1
  omega

theorem parse_padNum2 (n : Nat) (h : n ≤ 99) :
    parseDigitsAux (padNum 2 n) 0 = some n := by
  have e : padNum 2 n = [Nat.digitChar (n / 10 % 10), Nat.digitChar (n % 10)] := rfl
  rw [e, parseDigitsAux_digit _ (Nat.mod_lt _ (by norm_num)),
      parseDigitsAux_digit _ (Nat.mod_lt _ (by norm_num))]
  show some _ = some n
  congr 1
  omega

theorem daysInMonth_le (y m : Nat) : daysInMonth y m ≤ 31 := by
  simp only [daysInMonth]
  split
  · split <;> omega
  · split <;> omega

theorem parseDigitsAux_append (l1 l2 : List Char) (acc : Nat) :
    parseDigitsAux (l1 ++ l2) acc =
      (parseDigitsAux l1 acc).bind (parseDigitsAux l2) := by
  induction l1 generalizing acc with
  | nil => rfl
  | cons c cs ih =>
    by_cases hc : c.isDigit
    · simp [parseDigitsAux, hc, ih]
    · simp [parseDigitsAux, hc]

/-- Round trip: a valid date prints to ISO form and parses back to itself. -/
theorem fromIso_toIso (d : PyDate) (h : d.isValid = true) :
    fromIsoChars d.toIsoChars = some d := by
  obtain ⟨y, m, dd⟩ := d
  have hb : 1 ≤ y ∧ y ≤ 9999 ∧ 1 ≤ m ∧ m ≤ 12 ∧ 1 ≤ dd ∧ dd ≤ daysInMonth y m := by
    simpa [PyDate.isValid, and_assoc] using h
  obtain ⟨h1, h2, h3, h4, h5, h6⟩ := hb
  have ey : padNum 4 y =
      [Nat.digitChar (y / 10 / 10 / 10 % 10), Nat.digitChar (y / 10 / 10 % 10),
       Nat.digitChar (y / 10 % 10), Nat.digitChar (y % 10)] := rfl
  have em : padNum 2 m = [Nat.digitChar (m / 10 % 10), Nat.digitChar (m % 10)] := rfl
  have ed : padNum 2 dd = [Nat.digitChar (dd / 10 % 10), Nat.digitChar (dd % 10)] := rfl
  have hy := parse_padNum4 y h2
  have hm := parse_padNum2 m (by omega)
  have hd := parse_padNum2 dd (by have := daysInMonth_le y m; omega)
  rw [ey] at hy
  rw [em] at hm
  rw [ed] at hd
  simp only [PyDate.toIsoChars, ey, em, ed, List.cons_append, List.nil_append,
    fromIsoChars, hy, hm, hd]
  simp [h]

/-! ## Data model (`src/app/models`)

Pydantic models become structures; each `field_validator` becomes an
`Option`-valued normalization function, and model construction
(`User(**data)`, `Subscription(...)`) runs every validator, failing —
as pydantic raises `ValidationError` — when any of them rejects.
`float` prices are embedded as `Rat`: JSON round-trips Python floats
exactly, so only their algebra matters here. -/

/-- Python `str.strip()` (whitespace at both ends removed). -/
def pyStrip (s : String) : String :=
  ⟨((s.data.dropWhile Char.isWhitespace).reverse.dropWhile Char.isWhitespace).reverse⟩

/-- Python `str.capitalize()`: first character upper-cased, rest lower-cased. -/
def pyCapitalize (s : String) : String :=
  match s.data with
  | [] => ⟨[]⟩
  | c :: cs => ⟨c.toUpper :: cs.map Char.toLower⟩

/-- A subscription record (pydantic `Subscription`). -/
structure Subscription where
  service_name : String
  monthly_price : Rat
  category : String
  starting_date : Option PyDate
deriving DecidableEq, Repr

/-- A user record (pydantic `User`): display name, password hash stored
inline, identity email, owned subscriptions. -/
structure User where
  username : String
  passhash : String
  email : String
  subscriptions : List Subscription
deriving DecidableEq, Repr

/-- `validate_username` / `validate_service_name`: reject empty or
all-whitespace values, return the stripped value. -/
def validateNonEmptyStripped (v : String) : Option String :=
  if v = "" ∨ pyStrip v = "" then none else some (pyStrip v)

/-- `validate_category`: reject empty, normalize via `strip().capitalize()`. -/
def validate_category (v : String) : Option String :=
  if v = "" ∨ pyStrip v = "" then none else some (pyCapitalize (pyStrip v))

/-- `validate_price`: reject negative prices. -/
def validate_price (v : Rat) : Option Rat :=
  if v < 0 then none else some v

/-- `Subscription(...)` construction from already-decoded field values:
runs each field validator. -/
def mkSubscription (service_name : String) (monthly_price : Rat)
    (category : String) (starting_date : Option PyDate) : Option Subscription := do
  let sn ← validateNonEmptyStripped service_name
  let mp ← validate_price monthly_price
  let cat ← validate_category category
  some ⟨sn, mp, cat, starting_date⟩

/-- Decoded field values of one subscription entry, after the loader's
date fix-up and before pydantic validation. -/
structure SubFields where
  service_name : String
  monthly_price : Rat
  category : String
  starting_date : Option PyDate
deriving DecidableEq, Repr

/-- `User(**user_data)` construction: username validator, `EmailStr`
validation (the external `email-validator` check, passed in as a
predicate), and validation of every subscription entry; any failure
rejects the whole record. -/
def mkUser (emailValid : String → Bool) (username passhash email : String)
    (subs : List SubFields) : Option User := do
  let un ← validateNonEmptyStripped username
  if emailValid email then
    let ss ← subs.mapM
      (fun f => mkSubscription f.service_name f.monthly_price f.category f.starting_date)
    some ⟨un, passhash, email, ss⟩
  else none

/-! ## Session values

The session table stores either a bare identity string (legacy format)
or an `email`/`expires` pair (current format); `get_user_email_from_session`
accepts both. Expiry instants (`time.time()` floats) are embedded as `Int`. -/

/-- A value of the `active_sessions` dictionary. -/
inductive SessionVal where
  | legacy (email : String)
  | modern (email : String) (expires : Int)
deriving DecidableEq, Repr

/-- `get_user_email_from_session`: the owner identity of a session value. -/
def get_user_email_from_session : SessionVal → String
  | .legacy e => e
  | .modern e _ => e

/-! ## Serialized snapshot documents (`src/app/db/storage.py`)

`save_data_to_file` serializes `user.model_dump()` for every user and
`json.dump(..., default=str)` renders each `date` via `str`, i.e. as
its ISO string; `null` stands for an absent date. The JSON "users"
object is embedded as an ordered association list. -/

/-- On-disk form of one subscription entry. -/
structure RawSub where
  service_name : String
  monthly_price : Rat
  category : String
  starting_date : Option String
deriving DecidableEq, Repr

/-- On-disk form of one user record. -/
structure RawUser where
  username : String
  passhash : String
  email : String
  subscriptions : List RawSub
deriving DecidableEq, Repr

/-- The "users" object of the persisted JSON document. -/
abbrev Doc := List (String × RawUser)

/-- `model_dump` + `default=str` on one subscription. -/
def dumpSub (s : Subscription) : RawSub :=
  ⟨s.service_name, s.monthly_price, s.category, s.starting_date.map PyDate.toIso⟩

/-- `model_dump` + `default=str` on one user. -/
def dumpUser (u : User) : RawUser :=
  ⟨u.username, u.passhash, u.email, u.subscriptions.map dumpSub⟩

namespace Src

/-- The module-level mutable stores of `src/app/db/storage.py`. -/
structure State where
  user_database : List (String × User)
  active_sessions : List (String × SessionVal)
deriving DecidableEq, Repr

/-- `save_data_to_file` (current variant): serializes the user store —
and deliberately not the session store — and writes the document.
Returns the success flag and the document written. -/
def save_data_to_file (s : State) : Bool × Doc :=
  (true, s.user_database.map (fun p => (p.1, dumpUser p.2)))

/-- The loader's per-subscription date fix-up: an ISO string parses to a
date; an unparseable string is replaced by today's date; a non-string
(JSON `null`) is left alone. -/
def fixDate (today : PyDate) (rs : RawSub) : SubFields :=
  { service_name := rs.service_name
    monthly_price := rs.monthly_price
    category := rs.category
    starting_date :=
      match rs.starting_date with
      | none => none
      | some str =>
        match date_fromisoformat str with
        | some d => some d
        | none => some today }

/-- One iteration of the load loop: fix subscription dates, then
reconstruct the `User`; a record whose reconstruction fails is dropped
(`continue`). -/
def loadRecord (emailValid : String → Bool) (today : PyDate)
    (p : String × RawUser) : Option (String × User) :=
  (mkUser emailValid p.2.username p.2.passhash p.2.email
      (p.2.subscriptions.map (fixDate today))).map (fun u => (p.1, u))

/-- `load_data_from_file` (current variant), applied to a parsed
document: clears the user store, reconstructs each record, skipping the
ones that fail, and reports success. -/
def load_data_from_file (emailValid : String → Bool) (today : PyDate)
    (doc : Doc) : Bool × List (String × User) :=
  (true, doc.filterMap (loadRecord emailValid today))

end Src

/-! ## Round-trip of the persisted snapshot -/

/-- An optional date is constructible when present. -/
def dateOk : Option PyDate → Bool
  | none => true
  | some d => d.isValid

/-- A subscription record is validator-normal: every pydantic field
validator accepts it and returns it unchanged, and its date (when
present) is a constructible `datetime.date`. -/
abbrev SubWF (s : Subscription) : Prop :=
  validateNonEmptyStripped s.service_name = some s.service_name ∧
  validate_price s.monthly_price = some s.monthly_price ∧
  validate_category s.category = some s.category ∧
  dateOk s.starting_date = true

/-- A user record is validator-normal: the username validator and the
email check accept it unchanged and all its subscriptions are normal. -/
abbrev UserWF (emailValid : String → Bool) (u : User) : Prop :=
  validateNonEmptyStripped u.username = some u.username ∧
  emailValid u.email = true ∧
  ∀ s ∈ u.subscriptions, SubWF s

theorem fixDate_dumpSub (today : PyDate) (s : Subscription)
    (hdate : dateOk s.starting_date = true) :
    Src.fixDate today (dumpSub s) =
      ⟨s.service_name, s.monthly_price, s.category, s.starting_date⟩ := by
  cases hsd : s.starting_date with
  | none => simp [Src.fixDate, dumpSub, hsd]
  | some d =>
    rw [hsd] at hdate
    have hv : fromIsoChars d.toIsoChars = some d :=
      fromIso_toIso d (by simpa [dateOk] using hdate)
    simp [Src.fixDate, dumpSub, hsd, date_fromisoformat, PyDate.toIso, hv]

theorem mkSubscription_self (s : Subscription) (h : SubWF s) :
    mkSubscription s.service_name s.monthly_price s.category s.starting_date
      = some s := by
  obtain ⟨h1, h2, h3, _⟩ := h
  simp [mkSubscription, h1, h2, h3]

theorem mapM_dump_fix (today : PyDate) (l : List Subscription)
    (hl : ∀ s ∈ l, SubWF s) :
    ((l.map (fun s => Src.fixDate today (dumpSub s))).mapM
      (fun f => mkSubscription f.service_name f.monthly_price f.category f.starting_date))
      = some l := by
  induction l with
  | nil => rfl
  | cons a t ih =>
    have ha := hl a (by simp)
    have e := fixDate_dumpSub today a ha.2.2.2
    simp only [List.map_cons, List.mapM_cons, e]
    rw [mkSubscription_self a ha]
    rw [ih (fun s hs => hl s (by simp [hs]))]
    rfl

theorem loadRecord_dumpUser (emailValid : String → Bool) (today : PyDate)
    (e : String) (u : User) (h : UserWF emailValid u) :
    Src.loadRecord emailValid today (e, dumpUser u) = some (e, u) := by
  obtain ⟨hu, he, hs⟩ := h
  simp only [Src.loadRecord, dumpUser, mkUser, List.map_map, Function.comp_def]
  rw [hu]
  simp only [Option.some_bind, he, if_pos]
  rw [mapM_dump_fix today u.subscriptions hs]
  rfl

/-- An account store whose dates are valid ISO dates but whose category
string is not capitalize-normal: reachable only by editing the data
file, yet inside the scope of C5 as stated. -/
def skewStore : List (String × User) :=
  [("a@x.com", ⟨"A", "h0", "a@x.com",
      [⟨"Netflix", 1, "netflix", some ⟨2024, 1, 15⟩⟩]⟩)]

/-- A validator-normal account store. -/
def normalStore : List (String × User) :=
  [("a@x.com", ⟨"Ann", "h0", "a@x.com",
      [⟨"Netflix", 18, "Entertainment", some ⟨2024, 1, 15⟩⟩]⟩),
   ("b@x.com", ⟨"Bob", "h1", "b@x.com", []⟩)]

/-- C5 (counterexample): the claim quantifies over every account store
whose subscription dates are valid ISO-8601 dates. For the store whose
only category string is `"netflix"` — dates all valid — save followed
by load yields a store with category `"Netflix"`: loading re-runs the
pydantic validators, which rewrite the category, so the claim as stated
fails. -/
theorem c5_counterexample :
    (Src.load_data_from_file (fun _ => true) ⟨2026, 10, 12⟩
        (Src.save_data_to_file ⟨skewStore, []⟩).2).2 ≠ skewStore := by
  decide

/-- C5 (amended): for every account store whose records are
validator-normal — every pydantic field validator accepts the stored
value and returns it unchanged, the email check passes, and every
subscription date is a valid ISO-8601 calendar date — a save followed
by a load on a fresh store reproduces the store exactly (same identity,
display name, password hash and subscriptions), and the load reports
success. -/
theorem c5_save_load_roundtrip (emailValid : String → Bool) (today : PyDate)
    (users : List (String × User)) (sessions : List (String × SessionVal))
    (h : ∀ p ∈ users, UserWF emailValid p.2) :
    Src.load_data_from_file emailValid today
      (Src.save_data_to_file ⟨users, sessions⟩).2 = (true, users) := by
  simp only [Src.save_data_to_file, Src.load_data_from_file, Prod.mk.injEq, true_and]
  induction users with
  | nil => rfl
  | cons a t ih =>
    have ha := h a (by simp)
    simp only [List.map_cons, List.filterMap_cons,
      loadRecord_dumpUser emailValid today a.1 a.2 ha]
    rw [ih (fun p hp => h p (by simp [hp]))]

/-- C5 (witness): the amended round trip at a concrete two-user store. -/
theorem c5_save_load_roundtrip_witness :
    Src.load_data_from_file (fun _ => true) ⟨2026, 10, 12⟩
      (Src.save_data_to_file ⟨normalStore, []⟩).2 = (true, normalStore) :=
  c5_save_load_roundtrip (fun _ => true) ⟨2026, 10, 12⟩ normalStore []
    (by decide)

/-! ## Historical persistence variant (`old_src/app/db/storage.py`)

The old variant keeps password hashes in a separate `password_storage`
dictionary and serializes both stores (never the session table). Its
save is throttled through the module global `_last_save_time` — but in
the code as written the write branch never succeeds: `perform_save`
streams the document into the colocated `<target>.tmp` inside a
`with`-block, and the subsequent `data_file.flush()` sits outside that
block, so it runs on the already-closed file and raises `ValueError`.
`safe_operation` swallows the exception and returns `None`, so
`os.fsync` and `os.replace` never execute, the target file is never
updated, the call returns `False`, and `_last_save_time` never
advances. -/

namespace OldSrc

/-- The old variant's user record (`name`, not `username`; no inline
password hash). -/
structure OldUser where
  email : String
  name : String
  subscriptions : List Subscription
deriving DecidableEq, Repr

/-- On-disk form of one old-variant user record. -/
structure RawOldUser where
  email : String
  name : String
  subscriptions : List RawSub
deriving DecidableEq, Repr

/-- `model_dump` + `default=str` on one old-variant user. -/
def dumpOldUser (u : OldUser) : RawOldUser :=
  ⟨u.email, u.name, u.subscriptions.map dumpSub⟩

/-- The old variant's persisted JSON document: a "users" object and a
"passwords" object. -/
structure OldDoc where
  users : List (String × RawOldUser)
  passwords : List (String × String)
deriving DecidableEq, Repr

/-- The old variant's module-level mutable stores, including the
`_last_save_time` throttle timestamp. -/
structure OldState where
  user_database : List (String × OldUser)
  password_storage : List (String × String)
  active_sessions : List (String × SessionVal)
  last_save_time : Int
deriving DecidableEq, Repr

/-- `save_data_to_file(force)` (old variant): a non-forced call within
one second of `_last_save_time` returns `True` without writing.
Otherwise `perform_save` serializes the document (users and passwords,
never sessions) and writes it to the temp path — and then raises
`ValueError` calling `flush()` on the file its `with`-block already
closed, so `safe_operation` returns `None`: the result is falsy, the
state (including `_last_save_time`) is left unchanged, and the call
returns `False`. Returns the success flag, the new state, and the list
of documents physically written (to the temp path only). -/
def save_data_to_file (force : Bool) (now : Int) (s : OldState) :
    Bool × OldState × List OldDoc :=
  if force = false ∧ now - s.last_save_time < 1 then
    (true, s, [])
  else
    let doc : OldDoc :=
      ⟨s.user_database.map (fun p => (p.1, dumpOldUser p.2)), s.password_storage⟩
    (false, s, [doc])

end OldSrc

/-- C4: the persisted snapshot is a function of the credential data
only. In both variants, two states that agree on the account stores
(and, in the old variant, the password store and throttle timestamp)
but carry arbitrarily different session tables save to identical file
contents: sessions are never written. -/
theorem c4_sessions_never_persisted (users : List (String × User))
    (ousers : List (String × OldSrc.OldUser)) (pw : List (String × String))
    (last now : Int) (force : Bool)
    (sess1 sess2 : List (String × SessionVal)) :
    Src.save_data_to_file ⟨users, sess1⟩ = Src.save_data_to_file ⟨users, sess2⟩ ∧
    (OldSrc.save_data_to_file force now ⟨ousers, pw, sess1, last⟩).2.2 =
      (OldSrc.save_data_to_file force now ⟨ousers, pw, sess2, last⟩).2.2 := by
  refine ⟨rfl, ?_⟩
  by_cases h : force = false ∧ now - last < 1 <;>
    simp [OldSrc.save_data_to_file, h]

/-- An empty old-variant state at process start: `_last_save_time = 0`. -/
def st0 : OldSrc.OldState := ⟨[], [], [], 0⟩

/-- C6 (code evaluation at the failing input): in the old variant —
the only one with the `force` parameter and the throttle — the write
branch always fails, because `data_file.flush()` runs after the
`with`-block has closed the temp file and raises `ValueError`, which
`safe_operation` swallows. A forced save therefore returns `False`,
leaves the state (in particular `_last_save_time`) unchanged, and
writes the document only to the temp path; and two eligible non-forced
calls from process start perform two temp-path writes — the throttle
never engages because no save ever succeeds — not the claimed single
write. -/
theorem c6_save_write_branch_always_fails (s : OldSrc.OldState) (now : Int) :
    ((OldSrc.save_data_to_file true now s).1 = false ∧
     (OldSrc.save_data_to_file true now s).2.1 = s ∧
     (OldSrc.save_data_to_file true now s).2.2 =
       [⟨s.user_database.map (fun p => (p.1, OldSrc.dumpOldUser p.2)),
         s.password_storage⟩]) ∧
    ((OldSrc.save_data_to_file false 5 st0).2.2 ++
      (OldSrc.save_data_to_file false 5
        (OldSrc.save_data_to_file false 5 st0).2.1).2.2).length = 2 := by
  constructor
  · have e : OldSrc.save_data_to_file true now s =
        (false, s,
          [⟨s.user_database.map (fun p => (p.1, OldSrc.dumpOldUser p.2)),
            s.password_storage⟩]) := by
      rw [OldSrc.save_data_to_file, if_neg]
      rintro ⟨h, -⟩
      cases h
    rw [e]
    exact ⟨rfl, rfl, rfl⟩
  · decide

/-! ## Crash-safety of the physical write (C3)

The write path of `perform_save` is modeled as the sequence of
filesystem micro-steps the program actually executes, over a
path→contents map; a crash may occur between any two steps, so the
claimed atomicity means: at every prefix of the step sequence the
target path holds either its previous contents or the complete new
document. Serialization may reach the file in any chunking, so the
model quantifies over the chunk decomposition of the document. -/

/-- A filesystem: map from path to file contents. -/
abbrev FS := String → Option String

/-- One filesystem micro-step of the save path. -/
inductive WriteStep where
  | openTrunc (p : String)
  | writeChunk (p : String) (chunk : String)
deriving DecidableEq, Repr

/-- Effect of one micro-step: `open(p, "w")` truncates; writes append. -/
def applyStep (fs : FS) : WriteStep → FS
  | .openTrunc p => fun q => if q = p then some "" else fs q
  | .writeChunk p c => fun q => if q = p then some ((fs p).getD "" ++ c) else fs q

/-- Run a step sequence to completion. -/
def runSteps (fs : FS) : List WriteStep → FS
  | [] => fs
  | st :: rest => runSteps (applyStep fs st) rest

/-- All filesystem states reachable during a step sequence: the state
before each step and the final state. -/
def statesAlong (fs : FS) : List WriteStep → List FS
  | [] => [fs]
  | st :: rest => fs :: statesAlong (applyStep fs st) rest

/-- Concatenation of the chunk decomposition of a document. -/
def concatChunks : List String → String
  | [] => ""
  | c :: cs => c ++ concatChunks cs

/-- Micro-steps the old variant's `perform_save` actually executes:
truncate the colocated `<target>.tmp` and stream the document into it.
The `flush()` that follows runs on the file the `with`-block already
closed and raises `ValueError`, so the fsync and the `os.replace` over
the target are never reached. -/
def OldSrc.saveSteps (target : String) (chunks : List String) : List WriteStep :=
  .openTrunc (target ++ ".tmp") ::
    chunks.map (WriteStep.writeChunk (target ++ ".tmp"))

/-- Micro-steps of the current variant's `perform_save`: truncate the
target path itself, then stream the document into it. -/
def Src.saveSteps (target : String) (chunks : List String) : List WriteStep :=
  .openTrunc target :: chunks.map (WriteStep.writeChunk target)

theorem writeChunks_other (p q : String) (hq : q ≠ p) (chunks : List String)
    (fs : FS) :
    runSteps fs (chunks.map (WriteStep.writeChunk p)) q = fs q := by
  induction chunks generalizing fs with
  | nil => rfl
  | cons c cs ih =>
    simp only [List.map_cons, runSteps, ih, applyStep, if_neg hq]

theorem writeChunks_content (p : String) (chunks : List String) (fs : FS)
    (s : String) (h : fs p = some s) :
    runSteps fs (chunks.map (WriteStep.writeChunk p)) p =
      some (s ++ concatChunks chunks) := by
  induction chunks generalizing fs s with
  | nil => simpa [runSteps, concatChunks] using h
  | cons c cs ih =>
    simp only [List.map_cons, runSteps]
    rw [ih _ (s ++ c) (by simp [applyStep, h]), concatChunks,
      String.append_assoc]

theorem target_ne_tmp (target : String) : target ≠ target ++ ".tmp" := by
  intro h
  have h2 : target.length = (target ++ ".tmp").length := by rw [← h]
  rw [String.length_append] at h2
  have h3 : (".tmp" : String).length = 4 := rfl
  rw [h3] at h2
  omega

/-- Every filesystem state reached during a run of chunk writes to
path `p` agrees with the initial state on every other path. -/
theorem statesAlong_writeChunks (p q : String) (hq : q ≠ p)
    (chunks : List String) (fs : FS) :
    ∀ g ∈ statesAlong fs (chunks.map (WriteStep.writeChunk p)), g q = fs q := by
  induction chunks generalizing fs with
  | nil =>
    intro g hg
    simp only [List.map_nil, statesAlong, List.mem_singleton] at hg
    rw [hg]
  | cons c cs ih =>
    intro g hg
    simp only [List.map_cons, statesAlong, List.mem_cons] at hg
    rcases hg with h | h
    · rw [h]
    · rw [ih (applyStep fs (.writeChunk p c)) g h]
      simp [applyStep, if_neg hq]

/-- A filesystem whose target file holds the previous snapshot "OLD". -/
def exFs : FS := fun p => if p = "data.json" then some "OLD" else none

/-- C3 (counterexample): the current variant's save truncates the
target path in place. Starting from previous contents "OLD", with the
new document "NEW" reaching the file in chunks "NE" then "W", the
target passes through on-disk states "" and "NE" — neither the
previous nor the new snapshot — so the claim as stated fails for the
current code. -/
theorem c3_counterexample :
    ¬ (∀ v ∈ (statesAlong exFs (Src.saveSteps "data.json" ["NE", "W"])).map
        (fun g => g "data.json"),
      v = exFs "data.json" ∨ v = some (concatChunks ["NE", "W"])) := by
  decide

/-- C3 (amended): no physical save in either variant performs the
claimed atomic replacement. The current variant truncates and rewrites
the target in place, exposing partial documents mid-save (see the
counterexample). The old variant's save writes the document only to
the colocated temp path and then aborts — `flush()` runs on the
already-closed temp file and raises, so fsync and rename never execute:
at every point during such a save (and at its end) the target path
holds exactly its previous contents, the complete document reaches only
the temp path, and the save reports failure. -/
theorem c3_old_save_target_never_updated (fs : FS) (target : String)
    (chunks : List String) :
    (∀ v ∈ (statesAlong fs (OldSrc.saveSteps target chunks)).map
        (fun g => g target), v = fs target) ∧
    runSteps fs (OldSrc.saveSteps target chunks) target = fs target ∧
    runSteps fs (OldSrc.saveSteps target chunks) (target ++ ".tmp")
      = some (concatChunks chunks) ∧
    (∀ (s : OldSrc.OldState) (now : Int),
      (OldSrc.save_data_to_file true now s).1 = false) := by
  have hne := target_ne_tmp target
  have hfs1 : (applyStep fs (.openTrunc (target ++ ".tmp"))) (target ++ ".tmp")
      = some "" := by
    simp [applyStep]
  have hfs1t : (applyStep fs (.openTrunc (target ++ ".tmp"))) target
      = fs target := by
    simp [applyStep, if_neg hne]
  refine ⟨?_, ?_, ?_, ?_⟩
  · intro v hv
    simp only [OldSrc.saveSteps, statesAlong, List.map_cons, List.mem_cons] at hv
    rcases hv with h | hv
    · rw [h]
    · rw [List.mem_map] at hv
      obtain ⟨g, hg, rfl⟩ := hv
      rw [statesAlong_writeChunks (target ++ ".tmp") target hne chunks _ g hg,
        hfs1t]
  · show runSteps (applyStep fs (.openTrunc (target ++ ".tmp")))
      (chunks.map (WriteStep.writeChunk (target ++ ".tmp"))) target = fs target
    rw [writeChunks_other _ _ hne, hfs1t]
  · show runSteps (applyStep fs (.openTrunc (target ++ ".tmp")))
      (chunks.map (WriteStep.writeChunk (target ++ ".tmp"))) (target ++ ".tmp")
      = some (concatChunks chunks)
    rw [writeChunks_content _ chunks _ "" hfs1]
    simp
  · intro s now
    rw [OldSrc.save_data_to_file, if_neg]
    rintro ⟨h, -⟩
    cases h

/-- C3 (witness): the amended theorem at a concrete filesystem and
chunking — the target keeps "OLD" both mid-save and at the end, the
complete "NEW" document reaches only the temp path, and a forced save
reports failure. -/
theorem c3_old_save_target_never_updated_witness :
    (some "OLD" = exFs "data.json") ∧
    runSteps exFs (OldSrc.saveSteps "data.json" ["NE", "W"]) "data.json"
      = some "OLD" ∧
    runSteps exFs (OldSrc.saveSteps "data.json" ["NE", "W"])
      ("data.json" ++ ".tmp") = some "NEW" ∧
    (OldSrc.save_data_to_file true 5 st0).1 = false :=
  ⟨(c3_old_save_target_never_updated exFs "data.json" ["NE", "W"]).1
      (some "OLD") (by decide),
   (c3_old_save_target_never_updated exFs "data.json" ["NE", "W"]).2.1,
   (c3_old_save_target_never_updated exFs "data.json" ["NE", "W"]).2.2.1,
   (c3_old_save_target_never_updated exFs "data.json" ["NE", "W"]).2.2.2 st0 5⟩

/-! ## SHA-256 (`hashlib.sha256(...).hexdigest()`)

The current variant hashes passwords with plain SHA-256. The algorithm
is embedded over `Nat` with explicit reduction modulo `2^32`. -/

/-- `2^32`, the word modulus of SHA-256. -/
def M32 : Nat := 4294967296

/-- UTF-8 encoding of one character (`str.encode()`). -/
def utf8EncodeChar (c : Char) : List Nat :=
  let n := c.toNat
  if n < 128 then [n]
  else if n < 2048 then [192 + n / 64, 128 + n % 64]
  else if n < 65536 then [224 + n / 4096, 128 + (n / 64) % 64, 128 + n % 64]
  else [240 + n / 262144, 128 + (n / 4096) % 64, 128 + (n / 64) % 64, 128 + n % 64]

/-- `s.encode()`: the UTF-8 byte sequence of a string. -/
def strToBytes (s : String) : List Nat :=
  s.data.flatMap utf8EncodeChar

/-- Rotate a word right by `n` bits, reduced into 32 bits. -/
def rotr (n x : Nat) : Nat :=
  ((x >>> n) ||| (x <<< (32 - n))) % M32

def bsig0 (x : Nat) : Nat := rotr 2 x ^^^ rotr 13 x ^^^ rotr 22 x

def bsig1 (x : Nat) : Nat := rotr 6 x ^^^ rotr 11 x ^^^ rotr 25 x

def ssig0 (x : Nat) : Nat := rotr 7 x ^^^ rotr 18 x ^^^ (x >>> 3)

def ssig1 (x : Nat) : Nat := rotr 17 x ^^^ rotr 19 x ^^^ (x >>> 10)

def chFn (x y z : Nat) : Nat := (x &&& y) ^^^ ((x ^^^ (M32 - 1)) &&& z)

def majFn (x y z : Nat) : Nat := (x &&& y) ^^^ (x &&& z) ^^^ (y &&& z)

/-- The 64 SHA-256 round constants, written in decimal. -/
def sha256K : List Nat :=
  [1116352408, 1899447441, 3049323471, 3921009573,
   961987163, 1508970993, 2453635748, 2870763221,
   3624381080, 310598401, 607225278, 1426881987,
   1925078388, 2162078206, 2614888103, 3248222580,
   3835390401, 4022224774, 264347078, 604807628,
   770255983, 1249150122, 1555081692, 1996064986,
   2554220882, 2821834349, 2952996808, 3210313671,
   3336571891, 3584528711, 113926993, 338241895,
   666307205, 773529912, 1294757372, 1396182291,
   1695183700, 1986661051, 2177026350, 2456956037,
   2730485921, 2820302411, 3259730800, 3345764771,
   3516065817, 3600352804, 4094571909, 275423344,
   430227734, 506948616, 659060556, 883997877,
   958139571, 1322822218, 1537002063, 1747873779,
   1955562222, 2024104815, 2227730452, 2361852424,
   2428436474, 2756734187, 3204031479, 3329325298]

/-- Big-endian 8-byte rendering of the message bit length. -/
def be8 (n : Nat) : List Nat :=
  [n / 72057594037927936 % 256, n / 281474976710656 % 256,
   n / 1099511627776 % 256, n / 4294967296 % 256,
   n / 16777216 % 256, n / 65536 % 256, n / 256 % 256, n % 256]

/-- SHA-256 padding: append `0x80`, zero bytes to 56 mod 64, then the
bit length, big-endian. -/
def sha256Pad (msg : List Nat) : List Nat :=
  msg ++ 128 :: List.replicate ((119 - msg.length % 64) % 64) 0 ++
    be8 (8 * msg.length)

/-- Group bytes into big-endian 32-bit words. -/
def bytesToWords : List Nat → List Nat
  | b1 :: b2 :: b3 :: b4 :: rest =>
    (((b1 * 256 + b2) * 256 + b3) * 256 + b4) :: bytesToWords rest
  | _ => []

/-- Split a word list into blocks of 16 (fueled to stay structural). -/
def chunk16 : Nat → List Nat → List (List Nat)
  | _, [] => []
  | 0, _ => []
  | f + 1, ws => ws.take 16 :: chunk16 f (ws.drop 16)

/-- Extend a 16-word block by `k` further schedule words. -/
def extendW (w : List Nat) : Nat → List Nat
  | 0 => w
  | k + 1 =>
    extendW (w ++ [(ssig1 (w.getD (w.length - 2) 0) + w.getD (w.length - 7) 0 +
      ssig0 (w.getD (w.length - 15) 0) + w.getD (w.length - 16) 0) % M32]) k

/-- The eight SHA-256 working registers. -/
structure Hash8 where
  a : Nat
  b : Nat
  c : Nat
  d : Nat
  e : Nat
  f : Nat
  g : Nat
  h : Nat
deriving DecidableEq, Repr

/-- One compression round. -/
def compressStep (r : Hash8) (kc w : Nat) : Hash8 :=
  let t1 := (r.h + bsig1 r.e + chFn r.e r.f r.g + kc + w) % M32
  let t2 := (bsig0 r.a + majFn r.a r.b r.c) % M32
  ⟨(t1 + t2) % M32, r.a, r.b, r.c, (r.d + t1) % M32, r.e, r.f, r.g⟩

/-- Run the 64 compression rounds over paired constants and schedule. -/
def compressRounds (r : Hash8) : List (Nat × Nat) → Hash8
  | [] => r
  | (kc, w) :: rest => compressRounds (compressStep r kc w) rest

/-- Process one 512-bit block. -/
def processBlock (h0 : Hash8) (block : List Nat) : Hash8 :=
  let w := extendW block 48
  let r := compressRounds h0 (sha256K.zip w)
  ⟨(h0.a + r.a) % M32, (h0.b + r.b) % M32, (h0.c + r.c) % M32,
   (h0.d + r.d) % M32, (h0.e + r.e) % M32, (h0.f + r.f) % M32,
   (h0.g + r.g) % M32, (h0.h + r.h) % M32⟩

/-- The SHA-256 initial hash value, written in decimal. -/
def sha256H0 : Hash8 :=
  ⟨1779033703, 3144134277, 1013904242, 2773480762,
   1359893119, 2600822924, 528734635, 1541459225⟩

/-- Big-endian bytes of one 32-bit word. -/
def wordToBytes (w : Nat) : List Nat :=
  [w / 16777216 % 256, w / 65536 % 256, w / 256 % 256, w % 256]

/-- Lowercase hex rendering of a byte sequence (`hexdigest`). -/
def toHexChars (bytes : List Nat) : List Char :=
  bytes.flatMap (fun b => [Nat.digitChar (b / 16), Nat.digitChar (b % 16)])

/-- `hashlib.sha256(s.encode()).hexdigest()`. -/
def sha256_hexdigest (s : String) : String :=
  let padded := sha256Pad (strToBytes s)
  let words := bytesToWords padded
  let final := (chunk16 words.length words).foldl processBlock sha256H0
  ⟨toHexChars ([final.a, final.b, final.c, final.d,
                final.e, final.f, final.g, final.h].flatMap wordToBytes)⟩

namespace Src

/-- `hash_password` (current variant): the unsalted SHA-256 hex digest
of the password (the tuple/boolean branches only concern non-string
inputs and are unreachable for string passwords). -/
def hash_password (plain_password : String) : String :=
  sha256_hexdigest plain_password

/-- `verify_password` (current variant): recompute the hash and compare. -/
def verify_password (plain_password hashed_password : String) : Bool :=
  hash_password plain_password == hashed_password

end Src

/-! ## Authentication (`src/app/api/auth.py`, `src/app/core/security.py`)

The three module-level dictionaries — `user_database`,
`active_sessions` and `email_to_token_map` — become one state record of
partial maps. Token minting (`secrets.token_urlsafe`) is modeled by
passing the fresh token in as an argument: every theorem below holds
for an arbitrary choice of token. `time.time()` instants are `Int`. -/

/-- A partial map update (`d[k] = v` / `del d[k]`). -/
def mapSet (m : String → Option α) (k : String) (v : Option α) :
    String → Option α :=
  fun x => if x = k then v else m x

namespace Src

/-- The mutable authentication state: the credential store, the session
table, and the identity→token index. -/
structure AuthState where
  user_database : String → Option User
  active_sessions : String → Option SessionVal
  email_to_token_map : String → Option String

/-- The state at process start: all three dictionaries empty. -/
def emptyAuthState : AuthState :=
  ⟨fun _ => none, fun _ => none, fun _ => none⟩

inductive RegisterError where
  | emailExists
deriving DecidableEq, Repr

/-- `register_user`: reject an already-registered email, otherwise
insert a new user with the hashed password and no subscriptions. -/
def register_user (email username password : String) (s : AuthState) :
    Except RegisterError Unit × AuthState :=
  if (s.user_database email).isSome then
    (.error .emailExists, s)
  else
    let newUser : User := ⟨username, hash_password password, email, []⟩
    (.ok (), { s with user_database := mapSet s.user_database email (some newUser) })

inductive LoginError where
  | userNotFound
  | passwordNotSet
  | incorrectPassword
deriving DecidableEq, Repr

/-- `create_access_token`: store the fresh token with a
`now + 3600` expiry and return it. -/
def create_access_token (email : String) (freshTok : String) (now : Int)
    (s : AuthState) : (String × Int) × AuthState :=
  let sv : SessionVal := .modern email (now + 3600)
  ((freshTok, now + 3600),
    { s with active_sessions := mapSet s.active_sessions freshTok (some sv) })

/-- `login_user`: look up the user, check the stored hash, verify the
password; then evict any session indexed for this email, mint the new
token, and index it. -/
def login_user (email password : String) (freshTok : String) (now : Int)
    (s : AuthState) : Except LoginError (String × Int) × AuthState :=
  match s.user_database email with
  | none => (.error .userNotFound, s)
  | some user =>
    if user.passhash = "" then (.error .passwordNotSet, s)
    else if verify_password password user.passhash = false then
      (.error .incorrectPassword, s)
    else
      let s1 :=
        match s.email_to_token_map email with
        | some existing =>
          if (s.active_sessions existing).isSome then
            { s with active_sessions := mapSet s.active_sessions existing none }
          else s
        | none => s
      let r := create_access_token email freshTok now s1
      ((.ok r.1),
        { r.2 with
            email_to_token_map := mapSet r.2.email_to_token_map email (some freshTok) })

inductive AuthError where
  | invalidToken
  | expired
  | accountNotFound
deriving DecidableEq, Repr

/-- `get_current_user` (the auth gate): absent token fails invalid;
a dict-format session past its expiry is deleted and fails expired;
otherwise the owner is resolved against the credential store. -/
def get_current_user (auth_token : String) (now : Int) (s : AuthState) :
    Except AuthError User × AuthState :=
  match s.active_sessions auth_token with
  | none => (.error .invalidToken, s)
  | some (.modern email expires) =>
    if now > expires then
      (.error .expired,
        { s with active_sessions := mapSet s.active_sessions auth_token none })
    else
      match s.user_database email with
      | none => (.error .accountNotFound, s)
      | some u => (.ok u, s)
  | some (.legacy email) =>
    match s.user_database email with
    | none => (.error .accountNotFound, s)
    | some u => (.ok u, s)

inductive LogoutResult where
  | loggedOut
  | alreadyLoggedOut
  | authFailed (e : AuthError)
deriving DecidableEq, Repr

/-- The body of the `logout_user` handler, reached only after the
`get_current_user` dependency succeeds: delete the session if present
(and its index entry when it points at this token), else report an
already-logged-out no-op. -/
def logout_body (auth_token : String) (s : AuthState) :
    LogoutResult × AuthState :=
  match s.active_sessions auth_token with
  | some sv =>
    let user_email := get_user_email_from_session sv
    let s2 := { s with active_sessions := mapSet s.active_sessions auth_token none }
    let s3 :=
      if s2.email_to_token_map user_email = some auth_token then
        { s2 with email_to_token_map := mapSet s2.email_to_token_map user_email none }
      else s2
    (.loggedOut, s3)
  | none => (.alreadyLoggedOut, s)

/-- The `/logout` endpoint: FastAPI resolves the
`Depends(get_current_user)` dependency first, so an authentication
failure rejects the request before the handler body runs. -/
def logout_user (auth_token : String) (now : Int) (s : AuthState) :
    LogoutResult × AuthState :=
  match get_current_user auth_token now s with
  | (.error e, s1) => (.authFailed e, s1)
  | (.ok _, s1) => logout_body auth_token s1

/-- One request against the authentication surface. -/
inductive AuthOp where
  | register (email username password : String)
  | login (email password freshTok : String) (now : Int)
  | logout (tok : String) (now : Int)
  | resolve (tok : String) (now : Int)

/-- State transition of one request (responses discarded). -/
def authStep (s : AuthState) : AuthOp → AuthState
  | .register e u p => (register_user e u p s).2
  | .login e p tok now => (login_user e p tok now s).2
  | .logout tok now => (logout_user tok now s).2
  | .resolve tok now => (get_current_user tok now s).2

/-- Run a request sequence from process start. -/
def runAuth (ops : List AuthOp) : AuthState :=
  ops.foldl authStep emptyAuthState

/-- Invariant tying the session table to the identity→token index:
every live session's owner is indexed to exactly that session's token. -/
def SessionsIndexed (s : AuthState) : Prop :=
  ∀ t sv, s.active_sessions t = some sv →
    s.email_to_token_map (get_user_email_from_session sv) = some t

theorem sessionsIndexed_register (e u p : String) (s : AuthState)
    (h : SessionsIndexed s) : SessionsIndexed (register_user e u p s).2 := by
  unfold register_user
  split
  · exact h
  · exact h

theorem sessionsIndexed_login (e p tok : String) (now : Int) (s : AuthState)
    (h : SessionsIndexed s) : SessionsIndexed (login_user e p tok now s).2 := by
  unfold login_user
  cases hu : s.user_database e with
  | none => exact h
  | some user =>
    by_cases h1 : user.passhash = ""
    · simp only [if_pos h1]
      exact h
    · simp only [if_neg h1]
      by_cases h2 : verify_password p user.passhash = false
      · simp only [if_pos h2]
        exact h
      · simp only [if_neg h2]
        intro t sv hts
        simp only [create_access_token, mapSet] at hts ⊢
        by_cases htok : t = tok
        · subst htok
          rw [if_pos rfl] at hts
          cases hts
          simp [get_user_email_from_session]
        · rw [if_neg htok] at hts
          cases hmap : s.email_to_token_map e with
          | none =>
            simp only [hmap] at hts
            have hh := h t sv hts
            by_cases howner : get_user_email_from_session sv = e
            · rw [howner] at hh
              rw [hmap] at hh
              cases hh
            · simp only [if_neg howner]
              exact hh
          | some ex =>
            simp only [hmap] at hts ⊢
            by_cases hex : (s.active_sessions ex).isSome = true
            · simp only [if_pos hex, mapSet] at hts ⊢
              by_cases htex : t = ex
              · rw [if_pos htex] at hts
                cases hts
              · rw [if_neg htex] at hts
                have hh := h t sv hts
                by_cases howner : get_user_email_from_session sv = e
                · rw [howner, hmap] at hh
                  cases hh
                  exact absurd rfl htex
                · simp only [if_neg howner]
                  exact hh
            · simp only [if_neg hex] at hts ⊢
              have hh := h t sv hts
              by_cases howner : get_user_email_from_session sv = e
              · rw [howner, hmap] at hh
                cases hh
                rw [hts] at hex
                simp at hex
              · simp only [if_neg howner]
                exact hh

theorem sessionsIndexed_resolve (tok : String) (now : Int) (s : AuthState)
    (h : SessionsIndexed s) : SessionsIndexed (get_current_user tok now s).2 := by
  unfold get_current_user
  split
  · exact h
  · split
    · intro t sv hts
      simp only [mapSet] at hts
      by_cases ht : t = tok
      · rw [if_pos ht] at hts
        cases hts
      · rw [if_neg ht] at hts
        exact h t sv hts
    · split
      · exact h
      · exact h
  · split
    · exact h
    · exact h

theorem sessionsIndexed_logout_body (tok : String) (s : AuthState)
    (h : SessionsIndexed s) : SessionsIndexed (logout_body tok s).2 := by
  unfold logout_body
  cases hs : s.active_sessions tok with
  | none => exact h
  | some sv0 =>
    by_cases hmap :
        s.email_to_token_map (get_user_email_from_session sv0) = some tok
    · simp only [if_pos hmap]
      intro t sv hts
      simp only [mapSet] at hts ⊢
      by_cases ht : t = tok
      · rw [if_pos ht] at hts
        cases hts
      · rw [if_neg ht] at hts
        have hh := h t sv hts
        by_cases howner :
            get_user_email_from_session sv = get_user_email_from_session sv0
        · rw [howner, hmap] at hh
          cases hh
          exact absurd rfl ht
        · rw [if_neg howner]
          exact hh
    · simp only [if_neg hmap]
      intro t sv hts
      simp only [mapSet] at hts
      by_cases ht : t = tok
      · rw [if_pos ht] at hts
        cases hts
      · rw [if_neg ht] at hts
        exact h t sv hts

theorem sessionsIndexed_logout (tok : String) (now : Int) (s : AuthState)
    (h : SessionsIndexed s) : SessionsIndexed (logout_user tok now s).2 := by
  unfold logout_user
  cases hr : get_current_user tok now s with
  | mk res s1 =>
    have hs1 : SessionsIndexed s1 := by
      have := sessionsIndexed_resolve tok now s h
      rw [hr] at this
      exact this
    cases res with
    | error e => exact hs1
    | ok u => exact sessionsIndexed_logout_body tok s1 hs1

theorem sessionsIndexed_step (s : AuthState) (op : AuthOp)
    (h : SessionsIndexed s) : SessionsIndexed (authStep s op) := by
  cases op with
  | register e u p => exact sessionsIndexed_register e u p s h
  | login e p tok now => exact sessionsIndexed_login e p tok now s h
  | logout tok now => exact sessionsIndexed_logout tok now s h
  | resolve tok now => exact sessionsIndexed_resolve tok now s h

theorem sessionsIndexed_runAuth (ops : List AuthOp) :
    SessionsIndexed (runAuth ops) := by
  have general : ∀ (l : List AuthOp) (s : AuthState), SessionsIndexed s →
      SessionsIndexed (l.foldl authStep s) := by
    intro l
    induction l with
    | nil => exact fun s hs => hs
    | cons op rest ih =>
      intro s hs
      exact ih (authStep s op) (sessionsIndexed_step s op hs)
  refine general ops emptyAuthState ?_
  intro t sv hts
  cases hts

end Src

/-- C1: after any sequence of register, login, logout and
token-resolution requests from process start, the session table holds
at most one entry owned by any identity: any two table entries owned by
the same identity are the same entry. A successful login first evicts
the session indexed for that identity before installing the newly
minted token, and every operation preserves the identity→token index
discipline. Holds for any choice of minted tokens. -/
theorem c1_single_session_per_identity (ops : List Src.AuthOp)
    (I t1 t2 : String) (sv1 sv2 : SessionVal)
    (h1 : (Src.runAuth ops).active_sessions t1 = some sv1)
    (h2 : (Src.runAuth ops).active_sessions t2 = some sv2)
    (e1 : get_user_email_from_session sv1 = I)
    (e2 : get_user_email_from_session sv2 = I) :
    t1 = t2 := by
  have k1 := Src.sessionsIndexed_runAuth ops t1 sv1 h1
  have k2 := Src.sessionsIndexed_runAuth ops t2 sv2 h2
  rw [e1] at k1
  rw [e2] at k2
  rw [k1] at k2
  exact Option.some.inj k2

/-- A concrete request trace: one registration followed by one login. -/
def demoOps : List Src.AuthOp :=
  [.register "a@x.com" "Ann" "Pw1!aaaa", .login "a@x.com" "Pw1!aaaa" "tok1" 0]

/-- C1 (witness): the invariant theorem applied after a concrete
register/login trace whose session table actually holds a session. -/
theorem c1_single_session_per_identity_witness :
    (Src.runAuth demoOps).active_sessions "tok1"
      = some (.modern "a@x.com" 3600) ∧ "tok1" = "tok1" := by
  have hs : (Src.runAuth demoOps).active_sessions "tok1"
      = some (.modern "a@x.com" 3600) := by decide
  exact ⟨hs, c1_single_session_per_identity demoOps "a@x.com" "tok1" "tok1"
    (.modern "a@x.com" 3600) (.modern "a@x.com" 3600) hs hs rfl rfl⟩

/-- C10: a failed login is atomic — whenever `login_user` returns an
error (unknown identity, empty stored hash, or password mismatch), the
returned state is exactly the input state: no session is evicted, no
token is minted, no store is touched. -/
theorem c10_failed_login_preserves_state (e p tok : String) (now : Int)
    (s : Src.AuthState) (err : Src.LoginError)
    (h : (Src.login_user e p tok now s).1 = .error err) :
    (Src.login_user e p tok now s).2 = s := by
  unfold Src.login_user at h ⊢
  cases hu : s.user_database e with
  | none => simp only [hu]
  | some user =>
    simp only [hu] at h ⊢
    by_cases h1 : user.passhash = ""
    · simp only [if_pos h1]
    · simp only [if_neg h1] at h ⊢
      by_cases h2 : Src.verify_password p user.passhash = false
      · simp only [if_pos h2]
      · simp only [if_neg h2] at h
        cases h

/-- C10 (witness): a login against an empty credential store fails with
user-not-found and leaves the state untouched. -/
theorem c10_failed_login_preserves_state_witness :
    (Src.login_user "a@x.com" "pw" "T" 0 Src.emptyAuthState).1
      = .error .userNotFound ∧
    (Src.login_user "a@x.com" "pw" "T" 0 Src.emptyAuthState).2
      = Src.emptyAuthState := by
  have h : (Src.login_user "a@x.com" "pw" "T" 0 Src.emptyAuthState).1
      = .error .userNotFound := rfl
  exact ⟨h, c10_failed_login_preserves_state "a@x.com" "pw" "T" 0
    Src.emptyAuthState .userNotFound h⟩

/-- C7 (counterexample): the current variant hashes passwords with
unsalted SHA-256, a pure function of the password alone — so two
invocations of hash on the same password produce the identical string,
not different ones as the claim requires of a salted hasher. -/
theorem c7_counterexample :
    Src.hash_password "Pw1!aaaa" = Src.hash_password "Pw1!aaaa" ∧
    Src.verify_password "Pw1!aaaa" (Src.hash_password "Pw1!aaaa") = true := by
  refine ⟨rfl, ?_⟩
  simp [Src.verify_password]

/-- C7 (amended): the current variant's password hasher is unsalted
deterministic SHA-256: hashing is a pure function of the password (no
per-invocation salt), repeated invocations yield the identical digest,
and verify accepts any password against its own hash by recomputing
the digest. (The old variant used salted Argon2, for which the
original different-outputs property held.) -/
theorem c7_hash_deterministic_verify_accepts (p : String) :
    Src.hash_password p = Src.hash_password p ∧
    Src.verify_password p (Src.hash_password p) = true := by
  refine ⟨rfl, ?_⟩
  simp [Src.verify_password]

/-- C2: token resolution semantics of the auth gate. An absent token
fails invalid-token, unchanged state. A dict-format session strictly
past its expiry is deleted and fails expired, the credential store is
untouched, and re-resolving the same token afterwards (at any instant)
fails invalid-token. A not-expired session whose owner is missing from
the credential store fails account-not-found, unchanged state. A
not-expired session with an existing owner returns that owner's
account, unchanged state (likewise for legacy-format sessions, which
carry no expiry). -/
theorem c2_resolve_semantics (s : Src.AuthState) (T : String) (now : Int) :
    (s.active_sessions T = none →
      Src.get_current_user T now s = (.error .invalidToken, s)) ∧
    (∀ e exp, s.active_sessions T = some (.modern e exp) → now > exp →
      (Src.get_current_user T now s).1 = .error .expired ∧
      (Src.get_current_user T now s).2.active_sessions T = none ∧
      (Src.get_current_user T now s).2.user_database = s.user_database ∧
      (∀ t2 : Int,
        (Src.get_current_user T t2 (Src.get_current_user T now s).2).1
          = .error .invalidToken)) ∧
    (∀ e exp, s.active_sessions T = some (.modern e exp) → ¬ now > exp →
      s.user_database e = none →
      Src.get_current_user T now s = (.error .accountNotFound, s)) ∧
    (∀ e exp u, s.active_sessions T = some (.modern e exp) → ¬ now > exp →
      s.user_database e = some u →
      Src.get_current_user T now s = (.ok u, s)) ∧
    (∀ e, s.active_sessions T = some (.legacy e) →
      (s.user_database e = none →
        Src.get_current_user T now s = (.error .accountNotFound, s)) ∧
      (∀ u, s.user_database e = some u →
        Src.get_current_user T now s = (.ok u, s))) := by
  refine ⟨?_, ?_, ?_, ?_, ?_⟩
  · intro h
    unfold Src.get_current_user
    simp only [h]
  · intro e exp hT hexp
    have hdel : (Src.get_current_user T now s).2 =
        { s with active_sessions := mapSet s.active_sessions T none } := by
      unfold Src.get_current_user
      simp only [hT, if_pos hexp]
    have hres : (Src.get_current_user T now s).1 = .error .expired := by
      unfold Src.get_current_user
      simp only [hT, if_pos hexp]
    refine ⟨hres, ?_, ?_, ?_⟩
    · rw [hdel]
      simp [mapSet]
    · rw [hdel]
    · intro t2
      rw [hdel]
      unfold Src.get_current_user
      simp [mapSet]
  · intro e exp hT hexp hu
    unfold Src.get_current_user
    simp only [hT, if_neg hexp, hu]
  · intro e exp u hT hexp hu
    unfold Src.get_current_user
    simp only [hT, if_neg hexp, hu]
  · intro e hT
    constructor
    · intro hu
      unfold Src.get_current_user
      simp only [hT, hu]
    · intro u hu
      unfold Src.get_current_user
      simp only [hT, hu]

/-- A concrete user record. -/
def u0 : User := ⟨"Ann", "h0", "a@x.com", []⟩

/-- A concrete auth state: one account, one session for token "T"
expiring at instant 10. -/
def s0 : Src.AuthState :=
  ⟨mapSet (fun _ => none) "a@x.com" (some u0),
   mapSet (fun _ => none) "T" (some (.modern "a@x.com" 10)),
   mapSet (fun _ => none) "a@x.com" (some "T")⟩

/-- C2 (witness): the resolution theorem at the concrete state — a
fresh resolve succeeds, an unknown token fails invalid, a resolve past
expiry fails expired, and re-resolving the deleted token fails
invalid. -/
theorem c2_resolve_semantics_witness :
    Src.get_current_user "T" 5 s0 = (.ok u0, s0) ∧
    Src.get_current_user "X" 5 s0 = (.error .invalidToken, s0) ∧
    (Src.get_current_user "T" 20 s0).1 = .error .expired ∧
    (Src.get_current_user "T" 20 (Src.get_current_user "T" 20 s0).2).1
      = .error .invalidToken := by
  refine ⟨?_, ?_, ?_, ?_⟩
  · exact (c2_resolve_semantics s0 "T" 5).2.2.2.1 "a@x.com" 10 u0
      (by decide) (by decide) (by decide)
  · exact (c2_resolve_semantics s0 "X" 5).1 (by decide)
  · exact ((c2_resolve_semantics s0 "T" 20).2.1 "a@x.com" 10
      (by decide) (by decide)).1
  · exact ((c2_resolve_semantics s0 "T" 20).2.1 "a@x.com" 10
      (by decide) (by decide)).2.2.2 20

/-- C9 (counterexample): revoking a token absent from the session table
is not the successful no-op the claim describes: the `/logout`
endpoint's `get_current_user` dependency rejects the request with the
invalid-token error before the handler body (whose already-logged-out
reply is sequentially unreachable) can run. -/
theorem c9_counterexample :
    (Src.logout_user "T" 0 Src.emptyAuthState).1 = .authFailed .invalidToken ∧
    (Src.logout_user "T" 0 Src.emptyAuthState).1 ≠ .alreadyLoggedOut := by
  decide

/-- C9 (amended): revoking a token absent from the session table is
rejected by the auth gate with the invalid-token error, leaving all
state unchanged — so revocation is harmlessly repeatable, but it
surfaces as an authentication failure, not as a reported no-op success.
Revoking a live token owned by an existing account removes exactly that
session (all other session entries unchanged, credential store
untouched) and reports success, and immediately revoking the same token
again yields the invalid-token rejection with no further change. -/
theorem c9_logout_semantics (s : Src.AuthState) (T : String) (now : Int) :
    (s.active_sessions T = none →
      Src.logout_user T now s = (.authFailed .invalidToken, s)) ∧
    (∀ e exp u, s.active_sessions T = some (.modern e exp) → ¬ now > exp →
      s.user_database e = some u →
      (Src.logout_user T now s).1 = .loggedOut ∧
      (Src.logout_user T now s).2.active_sessions T = none ∧
      (∀ t', t' ≠ T →
        (Src.logout_user T now s).2.active_sessions t' = s.active_sessions t') ∧
      (Src.logout_user T now s).2.user_database = s.user_database ∧
      Src.logout_user T now (Src.logout_user T now s).2
        = (.authFailed .invalidToken, (Src.logout_user T now s).2)) := by
  constructor
  · intro h
    unfold Src.logout_user Src.get_current_user
    simp only [h]
  · intro e exp u hT hexp hu
    have hgate : Src.get_current_user T now s = (.ok u, s) := by
      unfold Src.get_current_user
      simp only [hT, if_neg hexp, hu]
    have hbody : Src.logout_user T now s = Src.logout_body T s := by
      unfold Src.logout_user
      rw [hgate]
    have hsessions : ∀ t', (Src.logout_body T s).2.active_sessions t'
        = mapSet s.active_sessions T none t' := by
      intro t'
      unfold Src.logout_body
      simp only [hT]
      split
      · rfl
      · rfl
    have hdb : (Src.logout_body T s).2.user_database = s.user_database := by
      unfold Src.logout_body
      simp only [hT]
      split
      · rfl
      · rfl
    have hr : (Src.logout_body T s).1 = .loggedOut := by
      unfold Src.logout_body
      simp only [hT]
    refine ⟨by rw [hbody, hr], ?_, ?_, by rw [hbody, hdb], ?_⟩
    · rw [hbody, hsessions]
      simp [mapSet]
    · intro t' ht'
      rw [hbody, hsessions]
      simp [mapSet, ht']
    · rw [hbody]
      have habs : (Src.logout_body T s).2.active_sessions T = none := by
        rw [hsessions]
        simp [mapSet]
      unfold Src.logout_user Src.get_current_user
      simp only [habs]

/-- C9 (witness): the amended logout theorem at the concrete state —
a live-token logout succeeds and empties the token's entry, and an
immediate second logout is rejected as invalid. -/
theorem c9_logout_semantics_witness :
    (Src.logout_user "T" 5 s0).1 = .loggedOut ∧
    (Src.logout_user "T" 5 s0).2.active_sessions "T" = none ∧
    Src.logout_user "X" 5 Src.emptyAuthState
      = (.authFailed .invalidToken, Src.emptyAuthState) := by
  have hmain := (c9_logout_semantics s0 "T" 5).2 "a@x.com" 10 u0
    (by decide) (by decide) (by decide)
  exact ⟨hmain.1, hmain.2.1,
    (c9_logout_semantics Src.emptyAuthState "X" 5).1 rfl⟩

/-- C8: per-record fault recovery during load. Loading any document
reports success; loading processes each record independently, so the
records around any given record load exactly as they would on their
own; a record whose reconstruction fails contributes nothing (it is
skipped and loading continues); and a record whose subscription date
string fails ISO-8601 parsing loads exactly as if that date were
today's date (the record itself is still loaded when its other fields
validate). -/
theorem c8_load_recovery (emailValid : String → Bool) (today : PyDate)
    (pre post : Doc) (e : String) (ru : RawUser) :
    ((Src.load_data_from_file emailValid today (pre ++ (e, ru) :: post)).1
      = true) ∧
    ((Src.load_data_from_file emailValid today (pre ++ (e, ru) :: post)).2 =
      (Src.load_data_from_file emailValid today pre).2 ++
      (Src.loadRecord emailValid today (e, ru)).toList ++
      (Src.load_data_from_file emailValid today post).2) ∧
    (Src.loadRecord emailValid today (e, ru) = none →
      (Src.load_data_from_file emailValid today (pre ++ (e, ru) :: post)).2 =
        (Src.load_data_from_file emailValid today pre).2 ++
        (Src.load_data_from_file emailValid today post).2) ∧
    (∀ (un ph em sn cat : String) (mp : Rat) (ds : String),
      date_fromisoformat ds = none →
      Src.loadRecord emailValid today (e, ⟨un, ph, em, [⟨sn, mp, cat, some ds⟩]⟩)
        = (mkUser emailValid un ph em [⟨sn, mp, cat, some today⟩]).map
            (fun u => (e, u))) := by
  refine ⟨rfl, ?_, ?_, ?_⟩
  · cases hlr : Src.loadRecord emailValid today (e, ru) <;>
      simp [Src.load_data_from_file, List.filterMap_append,
        List.filterMap_cons, hlr]
  · intro h
    simp [Src.load_data_from_file, List.filterMap_append,
      List.filterMap_cons, h]
  · intro un ph em sn cat mp ds hds
    simp only [Src.loadRecord, List.map_cons, List.map_nil, Src.fixDate, hds]

/-- A record whose only subscription has an unparseable date string. -/
def recBadDate : String × RawUser :=
  ("a@x.com", ⟨"Ann", "h0", "a@x.com",
    [⟨"Netflix", 18, "Entertainment", some "2024-13-40"⟩]⟩)

/-- A record that fails user reconstruction (empty username). -/
def recSkipped : String × RawUser := ("bad@x.com", ⟨"", "h", "bad@x.com", []⟩)

/-- A well-formed record. -/
def recGood : String × RawUser := ("b@x.com", ⟨"Bob", "h1", "b@x.com", []⟩)

/-- C8 (witness): the recovery theorem at a concrete snapshot — the
bad-date record loads with 2026-10-12 substituted, the overall load of
a three-record document (including an unreconstructable record)
succeeds, and the unreconstructable record is skipped while its
neighbours load as they would alone. -/
theorem c8_load_recovery_witness :
    Src.loadRecord (fun _ => true) ⟨2026, 10, 12⟩ recBadDate
      = some ("a@x.com", ⟨"Ann", "h0", "a@x.com",
          [⟨"Netflix", 18, "Entertainment", some ⟨2026, 10, 12⟩⟩]⟩) ∧
    (Src.load_data_from_file (fun _ => true) ⟨2026, 10, 12⟩
        ([recBadDate] ++ recSkipped :: [recGood])).1 = true ∧
    (Src.load_data_from_file (fun _ => true) ⟨2026, 10, 12⟩
        ([recBadDate] ++ recSkipped :: [recGood])).2 =
      (Src.load_data_from_file (fun _ => true) ⟨2026, 10, 12⟩ [recBadDate]).2 ++
      (Src.load_data_from_file (fun _ => true) ⟨2026, 10, 12⟩ [recGood]).2 := by
  refine ⟨?_, ?_, ?_⟩
  · have h4 := (c8_load_recovery (fun _ => true) ⟨2026, 10, 12⟩ [] []
      "a@x.com" recBadDate.2).2.2.2 "Ann" "h0" "a@x.com" "Netflix"
      "Entertainment" 18 "2024-13-40" (by decide)
    rw [show recBadDate = ("a@x.com", (⟨"Ann", "h0", "a@x.com",
      [⟨"Netflix", 18, "Entertainment", some "2024-13-40"⟩]⟩ : RawUser))
      from rfl]
    rw [h4]
    decide
  · exact (c8_load_recovery (fun _ => true) ⟨2026, 10, 12⟩ [recBadDate]
      [recGood] recSkipped.1 recSkipped.2).1
  · exact (c8_load_recovery (fun _ => true) ⟨2026, 10, 12⟩ [recBadDate]
      [recGood] recSkipped.1 recSkipped.2).2.2.1 (by decide)

end SubHub
